import Mathlib

/-!
Verification of the request-facade module (src/script.js): a wrapper around
an axios client exposing createApiApp plus five verb functions (get, post,
put, patch, remove — the last exported as delete) that normalize responses
and errors into a uniform envelope.

The embedding models JavaScript values observable at the module boundary,
the axios transport as a function from issued requests to outcomes, and the
module-level api variable as an explicit Option parameter. Each verb call
yields a CallEffect recording how its promise settles, the console.error
lines it writes, and the requests it hands to the client.
-/

/-- JavaScript values as observed at the module boundary: primitives plus
objects as ordered association lists of own fields. Numbers are modelled as
integers (the module only handles status codes and query values; NaN does
not arise). -/
inductive JSValue where
  | null
  | undefined
  | bool (b : Bool)
  | num (n : Int)
  | str (s : String)
  | obj (fields : List (String × JSValue))

/-- JavaScript truthiness of a value. -/
def truthy : JSValue → Bool
  | .null => false
  | .undefined => false
  | .bool b => b
  | .num n => n != 0
  | .str s => s != ""
  | .obj _ => true

/-- JavaScript logical-or: the first operand when truthy, otherwise the
second. -/
def jsOr (a b : JSValue) : JSValue :=
  if truthy a then a else b

/-- Default application in destructuring: the default fires exactly when
the bound value is undefined. -/
def orUndef (v d : JSValue) : JSValue :=
  match v with
  | .undefined => d
  | x => x

/-- JavaScript loose inequality against null (the data != null test): false
exactly on null and undefined. -/
def jsLooseNeqNull : JSValue → Bool
  | .null => false
  | .undefined => false
  | _ => true

/-- Field access with optional-chaining semantics: undefined on a missing
field and on a non-object receiver. -/
def getProp : JSValue → String → JSValue
  | .obj fs, k => (fs.lookup k).getD JSValue.undefined
  | _, _ => .undefined

/-- Own keys of an object, in insertion order; empty for non-objects. -/
def objKeys : JSValue → List String
  | .obj fs => fs.map Prod.fst
  | _ => []

/-- Whether the own keys of v are exactly ks, in any order. -/
def hasExactKeys (v : JSValue) (ks : List String) : Bool :=
  ks.all (fun k => (objKeys v).contains k) && (objKeys v).all (fun k => ks.contains k)

/-- Stringification URLSearchParams applies to keys and values. -/
def jsToString : JSValue → String
  | .str s => s
  | .num n => toString n
  | .bool b => if b then "true" else "false"
  | .null => "null"
  | .undefined => "undefined"
  | .obj _ => "[object Object]"

/-- UTF-8 code units of a character, as natural numbers below 256. -/
def utf8Bytes (c : Char) : List Nat :=
  let n := c.toNat
  if n < 0x80 then [n]
  else if n < 0x800 then [0xC0 + n / 0x40, 0x80 + n % 0x40]
  else if n < 0x10000 then [0xE0 + n / 0x1000, 0x80 + n / 0x40 % 0x40, 0x80 + n % 0x40]
  else [0xF0 + n / 0x40000, 0x80 + n / 0x1000 % 0x40, 0x80 + n / 0x40 % 0x40, 0x80 + n % 0x40]

/-- Uppercase hexadecimal digit for n below 16. -/
def hexDigit (n : Nat) : String :=
  if n < 10 then toString n
  else if n = 10 then "A" else if n = 11 then "B" else if n = 12 then "C"
  else if n = 13 then "D" else if n = 14 then "E" else "F"

/-- Serialization of one byte under application/x-www-form-urlencoded:
alphanumerics and asterisk, hyphen, dot, underscore pass through, space
becomes plus, every other byte becomes a percent escape. -/
def formByte (b : Nat) : String :=
  if (0x30 ≤ b ∧ b ≤ 0x39) ∨ (0x41 ≤ b ∧ b ≤ 0x5A) ∨ (0x61 ≤ b ∧ b ≤ 0x7A)
      ∨ b = 0x2A ∨ b = 0x2D ∨ b = 0x2E ∨ b = 0x5F then
    String.singleton (Char.ofNat b)
  else if b = 0x20 then "+"
  else "%" ++ hexDigit (b / 16) ++ hexDigit (b % 16)

/-- application/x-www-form-urlencoded encoding of a string. -/
def formEncode (s : String) : String :=
  String.join (((s.data.map utf8Bytes).flatten).map formByte)

/-- new URLSearchParams(data).toString() for a record initializer, the
documented input type of the get helper (a flat string/number mapping):
each key and stringified value is form-encoded, pairs are joined by
ampersands. Non-record initializers do not arise for this module. -/
def urlSearchParamsString (v : JSValue) : String :=
  match v with
  | .obj fs =>
      String.intercalate "&"
        (fs.map (fun p => formEncode p.1 ++ "=" ++ formEncode (jsToString p.2)))
  | _ => ""

/-- HTTP method of an issued request. -/
inductive Method where
  | GET | POST | PUT | PATCH | DELETE

/-- One request handed to the axios client: the url given to the client
(the route plus any query string; the configured baseURL is prepended by
axios itself, outside this module), the request body, and the axios config
object passed alongside. -/
structure Request where
  method : Method
  url : String
  body : JSValue
  config : JSValue

/-- A response the client promise resolved with. -/
structure AxiosResponse where
  headers : JSValue
  status : Nat
  data : JSValue

/-- The response attached to an axios error when one was received. -/
structure AxiosErrResponse where
  status : Nat
  data : JSValue

/-- An axios rejection: the received response, if any, plus the transport
error message. -/
structure AxiosError where
  response : Option AxiosErrResponse
  message : String

/-- Outcome of one request as reported by the client promise. -/
inductive AxiosOutcome where
  | success (resp : AxiosResponse)
  | failure (err : AxiosError)

/-- An exception escaping a verb call, rejecting its promise. -/
inductive JsException where
  | typeError (msg : String)

/-- How a verb call settles: resolved with a value (none models the
JavaScript undefined returned on the uninitialized path) or rejected. -/
inductive CallResult where
  | resolved (v : Option JSValue)
  | rejected (e : JsException)

/-- Observable effect of one verb call: how its promise settles, the lines
written via console.error, and the requests issued to the client. -/
structure CallEffect where
  result : CallResult
  stderr : List String
  requests : List Request

/-- The configured axios instance stored in the module-level api variable. -/
structure ApiHandle where
  baseURL : String
  config : JSValue

/-- createApiApp(baseURL, config): constructs the shared client; the
assignment to the module-level api variable is modelled by returning its
new value. -/
def createApiApp (baseURL : String) (config : JSValue) : Option ApiHandle :=
  some { baseURL := baseURL, config := config }

/-- The envelope built in the try branch of every verb. -/
def successEnvelope (resp : AxiosResponse) : JSValue :=
  .obj [("headers", resp.headers),
        ("main", .obj [("status", .num resp.status),
                       ("message", .str "Success"),
                       ("body", resp.data)])]

/-- formatError(err): maps an axios rejection to the error envelope. The
source computes the status from the received response with a fallback of 0
on a falsy value, which collapses to the received status when a response
exists and 0 otherwise. -/
def formatError (err : AxiosError) : JSValue :=
  let status : Nat :=
    match err.response with
    | some r => r.status
    | none => 0
  let respData : JSValue :=
    match err.response with
    | some r => r.data
    | none => .undefined
  if status ≥ 500 then
    .obj [("headers", .obj []),
          ("main", .obj [("status", .num status),
                         ("message", .str "Something went wrong. Please try again later."),
                         ("body", .null)])]
  else
    .obj [("headers", .obj []),
          ("main", .obj [("status", .num status),
                         ("message",
                            jsOr (jsOr (getProp respData "message") (.str err.message))
                                 (.str "Unknown error")),
                         ("body", jsOr respData (.obj []))])]

/-- The try/catch body shared verbatim by every verb: the success envelope
on a resolved response, formatError on a rejection. -/
def settleOutcome : AxiosOutcome → JSValue
  | .success resp => successEnvelope resp
  | .failure err => formatError err

/-- The console.error line printed when a verb runs before createApiApp. -/
def noApiMsg : String :=
  "No api app created!, try creating one using createApiApp() in the root file"

/-- The TypeError raised when the options object of a verb is undefined and
parameter destructuring fails; an async function turns it into a rejected
promise. -/
def destructureTypeError : JsException :=
  .typeError "Cannot destructure property of undefined"

/-- Options object of get; data defaults to null and config to the empty
object, each default firing on an undefined field. -/
structure GetOptions where
  route : String
  data : JSValue
  config : JSValue

/-- Options object of post, put and patch: route, body data, config. -/
structure BodyOptions where
  route : String
  data : JSValue
  config : JSValue

/-- Options object of the delete verb (implemented as remove): route and
config only, no body. -/
structure DeleteOptions where
  route : String
  config : JSValue

/-- get: builds the query string from data when data != null, appends it to
the route after a question mark, issues GET, and normalizes the outcome.
opts none models a call whose options object is undefined, which rejects
while destructuring; an uninitialized api logs a diagnostic and resolves
with undefined. -/
def get (api : Option ApiHandle) (transport : Request → AxiosOutcome)
    (opts : Option GetOptions) : CallEffect :=
  match opts with
  | none => { result := .rejected destructureTypeError, stderr := [], requests := [] }
  | some o =>
      let data := orUndef o.data .null
      let config := orUndef o.config (.obj [])
      match api with
      | some _ =>
          let queryParam := if jsLooseNeqNull data then urlSearchParamsString data else ""
          let req : Request :=
            { method := .GET, url := o.route ++ "?" ++ queryParam,
              body := .undefined, config := config }
          { result := .resolved (some (settleOutcome (transport req))),
            stderr := [], requests := [req] }
      | none => { result := .resolved none, stderr := [noApiMsg], requests := [] }

/-- post: issues POST with data as the body; config defaults to
withCredentials true. -/
def post (api : Option ApiHandle) (transport : Request → AxiosOutcome)
    (opts : Option BodyOptions) : CallEffect :=
  match opts with
  | none => { result := .rejected destructureTypeError, stderr := [], requests := [] }
  | some o =>
      let config := orUndef o.config (.obj [("withCredentials", .bool true)])
      match api with
      | some _ =>
          let req : Request :=
            { method := .POST, url := o.route, body := o.data, config := config }
          { result := .resolved (some (settleOutcome (transport req))),
            stderr := [], requests := [req] }
      | none => { result := .resolved none, stderr := [noApiMsg], requests := [] }

/-- put: issues PUT with data as the body; config defaults to the empty
object. -/
def put (api : Option ApiHandle) (transport : Request → AxiosOutcome)
    (opts : Option BodyOptions) : CallEffect :=
  match opts with
  | none => { result := .rejected destructureTypeError, stderr := [], requests := [] }
  | some o =>
      let config := orUndef o.config (.obj [])
      match api with
      | some _ =>
          let req : Request :=
            { method := .PUT, url := o.route, body := o.data, config := config }
          { result := .resolved (some (settleOutcome (transport req))),
            stderr := [], requests := [req] }
      | none => { result := .resolved none, stderr := [noApiMsg], requests := [] }

/-- patch: issues PATCH with data as the body; config defaults to
withCredentials true. -/
def patch (api : Option ApiHandle) (transport : Request → AxiosOutcome)
    (opts : Option BodyOptions) : CallEffect :=
  match opts with
  | none => { result := .rejected destructureTypeError, stderr := [], requests := [] }
  | some o =>
      let config := orUndef o.config (.obj [("withCredentials", .bool true)])
      match api with
      | some _ =>
          let req : Request :=
            { method := .PATCH, url := o.route, body := o.data, config := config }
          { result := .resolved (some (settleOutcome (transport req))),
            stderr := [], requests := [req] }
      | none => { result := .resolved none, stderr := [noApiMsg], requests := [] }

/-- remove (exported as delete): issues DELETE with no body; config
defaults to withCredentials true. -/
def remove (api : Option ApiHandle) (transport : Request → AxiosOutcome)
    (opts : Option DeleteOptions) : CallEffect :=
  match opts with
  | none => { result := .rejected destructureTypeError, stderr := [], requests := [] }
  | some o =>
      let config := orUndef o.config (.obj [("withCredentials", .bool true)])
      match api with
      | some _ =>
          let req : Request :=
            { method := .DELETE, url := o.route, body := .undefined, config := config }
          { result := .resolved (some (settleOutcome (transport req))),
            stderr := [], requests := [req] }
      | none => { result := .resolved none, stderr := [noApiMsg], requests := [] }

/-- The value a call resolved with, if it resolved. -/
def resolvedValue : CallResult → Option JSValue
  | .resolved v => v
  | .rejected _ => none

/-- Whether a call settled (resolved) rather than rejected. -/
def isResolved : CallResult → Bool
  | .resolved _ => true
  | .rejected _ => false

/-- Shape property of one settled verb call: it resolves with an object of
exactly the fields headers and main, with main holding exactly status,
message and body. -/
abbrev nestedEnvelopeShape (e : CallEffect) : Prop :=
  ∃ v, e.result = .resolved (some v) ∧
    objKeys v = ["headers", "main"] ∧
    objKeys (getProp v "main") = ["status", "message", "body"]

/-- Envelope contents for a failure whose received status s is at least
500: empty headers, status s, the fixed generic message, null body. -/
abbrev serverErrorEnv (e : CallEffect) (s : Nat) : Prop :=
  ∃ v, e.result = .resolved (some v) ∧
    getProp v "headers" = .obj [] ∧
    getProp (getProp v "main") "status" = .num s ∧
    getProp (getProp v "main") "message" = .str "Something went wrong. Please try again later." ∧
    getProp (getProp v "main") "body" = .null

/-- Envelope contents for a failure with received status s below 500 and
payload: empty headers, status s, the payload as body (or the empty object
when the payload is falsy), and the message taken from the payload message
field when truthy, else the transport message tm when nonempty, else the
fallback. -/
abbrev clientErrorEnv (e : CallEffect) (s : Nat) (payload : JSValue) (tm : String) : Prop :=
  ∃ v, e.result = .resolved (some v) ∧
    getProp v "headers" = .obj [] ∧
    getProp (getProp v "main") "status" = .num s ∧
    getProp (getProp v "main") "body" = (if truthy payload then payload else .obj []) ∧
    getProp (getProp v "main") "message" =
      (if truthy (getProp payload "message") then getProp payload "message"
       else if tm ≠ "" then .str tm else .str "Unknown error")

/-- Envelope contents for a failure with no received response: empty
headers, status 0, empty-object body, and the transport message tm when
nonempty, else the fallback. -/
abbrev networkErrorEnv (e : CallEffect) (tm : String) : Prop :=
  ∃ v, e.result = .resolved (some v) ∧
    getProp v "headers" = .obj [] ∧
    getProp (getProp v "main") "status" = .num 0 ∧
    getProp (getProp v "main") "body" = .obj [] ∧
    getProp (getProp v "main") "message" = (if tm ≠ "" then .str tm else .str "Unknown error")

/-- Envelope contents for a success: the transport headers, status and
decoded payload, with the fixed Success message. -/
abbrev successEnv (e : CallEffect) (resp : AxiosResponse) : Prop :=
  ∃ v, e.result = .resolved (some v) ∧
    getProp v "headers" = resp.headers ∧
    getProp (getProp v "main") "status" = .num resp.status ∧
    getProp (getProp v "main") "message" = .str "Success" ∧
    getProp (getProp v "main") "body" = resp.data

theorem truthy_str (m : String) : truthy (JSValue.str m) = (m != "") := rfl

theorem jsOr_true {a : JSValue} (h : truthy a = true) (b : JSValue) : jsOr a b = a := by
  simp [jsOr, h]

theorem jsOr_false {a : JSValue} (h : truthy a = false) (b : JSValue) : jsOr a b = b := by
  simp [jsOr, h]

theorem jsOr_str (m : String) (c : JSValue) :
    jsOr (JSValue.str m) c = if m ≠ "" then JSValue.str m else c := by
  by_cases hm : m = ""
  · subst hm
    rw [jsOr_false (by decide), if_neg (by simp)]
  · rw [jsOr_true (by rw [truthy_str]; simp [hm]), if_pos hm]

theorem jsOr_str_chain (a : JSValue) (m : String) (c : JSValue) :
    jsOr (jsOr a (JSValue.str m)) c
      = if truthy a then a else if m ≠ "" then JSValue.str m else c := by
  cases hb : truthy a with
  | true => rw [jsOr_true hb, jsOr_true hb]; simp
  | false => rw [jsOr_false hb, if_neg (by simp), jsOr_str]

theorem settleOutcome_keys (out : AxiosOutcome) :
    objKeys (settleOutcome out) = ["headers", "main"] ∧
    objKeys (getProp (settleOutcome out) "main") = ["status", "message", "body"] := by
  cases out with
  | success resp => exact ⟨rfl, rfl⟩
  | failure err =>
      simp only [settleOutcome, formatError]
      split <;> exact ⟨rfl, rfl⟩

theorem formatError_server (k : Nat) (d : JSValue) (m : String) :
    formatError { response := some { status := 500 + k, data := d }, message := m }
      = .obj [("headers", .obj []),
              ("main", .obj [("status", .num (500 + k : Nat)),
                             ("message", .str "Something went wrong. Please try again later."),
                             ("body", .null)])] := by
  simp only [formatError]
  rw [if_pos (Nat.le_add_right 500 k)]

theorem formatError_client (s : Nat) (hs : s < 500) (d : JSValue) (m : String) :
    formatError { response := some { status := s, data := d }, message := m }
      = .obj [("headers", .obj []),
              ("main", .obj [("status", .num s),
                             ("message",
                                if truthy (getProp d "message") then getProp d "message"
                                else if m ≠ "" then .str m else .str "Unknown error"),
                             ("body", if truthy d then d else .obj [])])] := by
  simp only [formatError]
  rw [if_neg (by omega : ¬ s ≥ 500), jsOr_str_chain]
  rfl

theorem formatError_network (m : String) :
    formatError { response := none, message := m }
      = .obj [("headers", .obj []),
              ("main", .obj [("status", .num 0),
                             ("message", if m ≠ "" then .str m else .str "Unknown error"),
                             ("body", .obj [])])] := by
  simp only [formatError]
  rw [if_neg (by omega : ¬ (0 : Nat) ≥ 500),
      show jsOr (getProp JSValue.undefined "message") (JSValue.str m) = JSValue.str m from rfl,
      jsOr_str]
  rfl

/-- C1 counterexample: after initialization, a successful get resolves with
a value whose own keys are not the four flat fields headers, status,
message, body claimed by the spec; the value nests status, message and body
under a main field. -/
theorem flat_envelope_refuted :
    Option.map (fun v => hasExactKeys v ["headers", "status", "message", "body"])
      (resolvedValue
        (get (createApiApp "https://api.example.com" (.obj []))
          (fun _ => .success { headers := .obj [], status := 200, data := .str "ok" })
          (some { route := "/items", data := .undefined, config := .undefined })).result)
      = some false := rfl

/-- C1 amended: after initialization, every verb call with a provided
options object resolves, on every success and failure path, with an object
of exactly the two fields headers and main, where main holds exactly
status, message and body. -/
theorem verbs_return_nested_envelope (baseURL : String) (cfg : JSValue)
    (t : Request → AxiosOutcome) (og : GetOptions) (ob ou oa : BodyOptions)
    (od : DeleteOptions) :
    nestedEnvelopeShape (get (createApiApp baseURL cfg) t (some og)) ∧
    nestedEnvelopeShape (post (createApiApp baseURL cfg) t (some ob)) ∧
    nestedEnvelopeShape (put (createApiApp baseURL cfg) t (some ou)) ∧
    nestedEnvelopeShape (patch (createApiApp baseURL cfg) t (some oa)) ∧
    nestedEnvelopeShape (remove (createApiApp baseURL cfg) t (some od)) := by
  refine ⟨⟨_, rfl, ?_, ?_⟩, ⟨_, rfl, ?_, ?_⟩, ⟨_, rfl, ?_, ?_⟩,
          ⟨_, rfl, ?_, ?_⟩, ⟨_, rfl, ?_, ?_⟩⟩
  all_goals first
    | exact (settleOutcome_keys _).1
    | exact (settleOutcome_keys _).2

/-- C2 counterexample: even after initialization, calling get with an
undefined options object does not settle with a value; the promise is
rejected with the destructuring TypeError. -/
theorem settle_refuted_on_undefined_options :
    (get (createApiApp "https://api.example.com" (.obj []))
        (fun _ => .success { headers := .obj [], status := 200, data := .null })
        none).result
      = .rejected destructureTypeError := rfl

/-- C2 amended: for every verb function and every call whose options object
is provided, the result settles with a returned value and never rejects,
and any failure of the underlying request is caught and converted into the
formatError envelope. -/
theorem verbs_with_options_always_settle (api : Option ApiHandle)
    (t : Request → AxiosOutcome) (og : GetOptions) (ob ou oa : BodyOptions)
    (od : DeleteOptions) (h : ApiHandle) (err : AxiosError) :
    (isResolved (get api t (some og)).result = true ∧
     isResolved (post api t (some ob)).result = true ∧
     isResolved (put api t (some ou)).result = true ∧
     isResolved (patch api t (some oa)).result = true ∧
     isResolved (remove api t (some od)).result = true) ∧
    ((get (some h) (fun _ => .failure err) (some og)).result
        = .resolved (some (formatError err)) ∧
     (post (some h) (fun _ => .failure err) (some ob)).result
        = .resolved (some (formatError err)) ∧
     (put (some h) (fun _ => .failure err) (some ou)).result
        = .resolved (some (formatError err)) ∧
     (patch (some h) (fun _ => .failure err) (some oa)).result
        = .resolved (some (formatError err)) ∧
     (remove (some h) (fun _ => .failure err) (some od)).result
        = .resolved (some (formatError err))) := by
  refine ⟨⟨?_, ?_, ?_, ?_, ?_⟩, rfl, rfl, rfl, rfl, rfl⟩ <;> cases api <;> rfl

/-- A call whose result is the formatError envelope of a response with
status 500 + k satisfies the server-error envelope contract. -/
theorem serverErrorEnv_of_result (e : CallEffect) (k : Nat) (d : JSValue) (m : String)
    (he : e.result = .resolved (some (formatError
      { response := some { status := 500 + k, data := d }, message := m }))) :
    serverErrorEnv e (500 + k) := by
  rw [formatError_server k d m] at he
  exact ⟨_, he, rfl, rfl, rfl, rfl⟩

/-- A call whose result is the formatError envelope of a response with a
status below 500 satisfies the client-error envelope contract. -/
theorem clientErrorEnv_of_result (e : CallEffect) (s : Nat) (hs : s < 500)
    (d : JSValue) (m : String)
    (he : e.result = .resolved (some (formatError
      { response := some { status := s, data := d }, message := m }))) :
    clientErrorEnv e s d m := by
  rw [formatError_client s hs d m] at he
  exact ⟨_, he, rfl, rfl, rfl, rfl⟩

/-- A call whose result is the formatError envelope of an error with no
received response satisfies the network-error envelope contract. -/
theorem networkErrorEnv_of_result (e : CallEffect) (m : String)
    (he : e.result = .resolved (some (formatError { response := none, message := m }))) :
    networkErrorEnv e m := by
  rw [formatError_network m] at he
  exact ⟨_, he, rfl, rfl, rfl, rfl⟩

/-- C3: for every failure whose received response status is at least 500,
every verb returns the envelope with empty headers, the received status,
the fixed generic message, and null body, regardless of the payload the
server returned. -/
theorem server_error_envelope_all_verbs (k : Nat) (d : JSValue) (m : String)
    (baseURL : String) (cfg : JSValue) (og : GetOptions) (ob ou oa : BodyOptions)
    (od : DeleteOptions) :
    serverErrorEnv (get (createApiApp baseURL cfg)
      (fun _ => .failure { response := some { status := 500 + k, data := d }, message := m })
      (some og)) (500 + k) ∧
    serverErrorEnv (post (createApiApp baseURL cfg)
      (fun _ => .failure { response := some { status := 500 + k, data := d }, message := m })
      (some ob)) (500 + k) ∧
    serverErrorEnv (put (createApiApp baseURL cfg)
      (fun _ => .failure { response := some { status := 500 + k, data := d }, message := m })
      (some ou)) (500 + k) ∧
    serverErrorEnv (patch (createApiApp baseURL cfg)
      (fun _ => .failure { response := some { status := 500 + k, data := d }, message := m })
      (some oa)) (500 + k) ∧
    serverErrorEnv (remove (createApiApp baseURL cfg)
      (fun _ => .failure { response := some { status := 500 + k, data := d }, message := m })
      (some od)) (500 + k) :=
  ⟨serverErrorEnv_of_result _ k d m rfl, serverErrorEnv_of_result _ k d m rfl,
   serverErrorEnv_of_result _ k d m rfl, serverErrorEnv_of_result _ k d m rfl,
   serverErrorEnv_of_result _ k d m rfl⟩

/-- C4: for every failure whose received response status lies in [400,499],
every verb returns the envelope with empty headers, the received status,
the server payload as body (or the empty object when the payload is falsy),
and the message taken from the payload message field when truthy, else the
transport error message when nonempty, else the fallback Unknown error. -/
theorem client_error_envelope_all_verbs (k : Fin 100) (d : JSValue) (m : String)
    (baseURL : String) (cfg : JSValue) (og : GetOptions) (ob ou oa : BodyOptions)
    (od : DeleteOptions) :
    clientErrorEnv (get (createApiApp baseURL cfg)
      (fun _ => .failure { response := some { status := 400 + k.val, data := d }, message := m })
      (some og)) (400 + k.val) d m ∧
    clientErrorEnv (post (createApiApp baseURL cfg)
      (fun _ => .failure { response := some { status := 400 + k.val, data := d }, message := m })
      (some ob)) (400 + k.val) d m ∧
    clientErrorEnv (put (createApiApp baseURL cfg)
      (fun _ => .failure { response := some { status := 400 + k.val, data := d }, message := m })
      (some ou)) (400 + k.val) d m ∧
    clientErrorEnv (patch (createApiApp baseURL cfg)
      (fun _ => .failure { response := some { status := 400 + k.val, data := d }, message := m })
      (some oa)) (400 + k.val) d m ∧
    clientErrorEnv (remove (createApiApp baseURL cfg)
      (fun _ => .failure { response := some { status := 400 + k.val, data := d }, message := m })
      (some od)) (400 + k.val) d m := by
  have hs : 400 + k.val < 500 := by have := k.isLt; omega
  exact ⟨clientErrorEnv_of_result _ _ hs d m rfl, clientErrorEnv_of_result _ _ hs d m rfl,
         clientErrorEnv_of_result _ _ hs d m rfl, clientErrorEnv_of_result _ _ hs d m rfl,
         clientErrorEnv_of_result _ _ hs d m rfl⟩

/-- C5: for every failure with no received response, every verb returns the
envelope with status 0, empty headers, the empty object as body, and the
transport error message when nonempty, else the fallback Unknown error. -/
theorem network_error_envelope_all_verbs (m : String) (baseURL : String)
    (cfg : JSValue) (og : GetOptions) (ob ou oa : BodyOptions)
    (od : DeleteOptions) :
    networkErrorEnv (get (createApiApp baseURL cfg)
      (fun _ => .failure { response := none, message := m }) (some og)) m ∧
    networkErrorEnv (post (createApiApp baseURL cfg)
      (fun _ => .failure { response := none, message := m }) (some ob)) m ∧
    networkErrorEnv (put (createApiApp baseURL cfg)
      (fun _ => .failure { response := none, message := m }) (some ou)) m ∧
    networkErrorEnv (patch (createApiApp baseURL cfg)
      (fun _ => .failure { response := none, message := m }) (some oa)) m ∧
    networkErrorEnv (remove (createApiApp baseURL cfg)
      (fun _ => .failure { response := none, message := m }) (some od)) m :=
  ⟨networkErrorEnv_of_result _ m rfl, networkErrorEnv_of_result _ m rfl,
   networkErrorEnv_of_result _ m rfl, networkErrorEnv_of_result _ m rfl,
   networkErrorEnv_of_result _ m rfl⟩

/-- C6: for every successful request, every verb returns the envelope with
the transport headers, the transport status, the fixed Success message and
the decoded payload as body. -/
theorem success_envelope_all_verbs (resp : AxiosResponse) (baseURL : String)
    (cfg : JSValue) (og : GetOptions) (ob ou oa : BodyOptions)
    (od : DeleteOptions) :
    successEnv (get (createApiApp baseURL cfg)
      (fun _ => .success resp) (some og)) resp ∧
    successEnv (post (createApiApp baseURL cfg)
      (fun _ => .success resp) (some ob)) resp ∧
    successEnv (put (createApiApp baseURL cfg)
      (fun _ => .success resp) (some ou)) resp ∧
    successEnv (patch (createApiApp baseURL cfg)
      (fun _ => .success resp) (some oa)) resp ∧
    successEnv (remove (createApiApp baseURL cfg)
      (fun _ => .success resp) (some od)) resp :=
  ⟨⟨successEnvelope resp, rfl, rfl, rfl, rfl, rfl⟩,
   ⟨successEnvelope resp, rfl, rfl, rfl, rfl, rfl⟩,
   ⟨successEnvelope resp, rfl, rfl, rfl, rfl, rfl⟩,
   ⟨successEnvelope resp, rfl, rfl, rfl, rfl, rfl⟩,
   ⟨successEnvelope resp, rfl, rfl, rfl, rfl, rfl⟩⟩

/-- C7: get serializes its data mapping into a query string appended to the
route after a question mark; with the mapping a to 1 and b to x on route
/items the issued url is /items?a=1&b=x, and with data null or omitted the
issued url is the route followed by a bare question mark. -/
theorem get_query_string_construction (baseURL : String) (cfg : JSValue)
    (t : Request → AxiosOutcome) (route : String) (c : JSValue) :
    ((get (createApiApp baseURL cfg) t
        (some { route := "/items", data := .obj [("a", .num 1), ("b", .str "x")],
                config := c })).requests.map Request.url = ["/items?a=1&b=x"]) ∧
    ((get (createApiApp baseURL cfg) t
        (some { route := route, data := .null, config := c })).requests.map Request.url
      = [route ++ "?"]) ∧
    ((get (createApiApp baseURL cfg) t
        (some { route := route, data := .undefined, config := c })).requests.map Request.url
      = [route ++ "?"]) := by
  refine ⟨rfl, ?_, ?_⟩ <;>
    exact (show [route ++ "?" ++ ""] = [route ++ "?"] by rw [String.append_empty])

/-- C8: calling any verb before createApiApp resolves with undefined (no
envelope), throws nothing, writes the diagnostic line to the error stream,
and issues no request. -/
theorem uninitialized_verb_behavior (t : Request → AxiosOutcome)
    (og : GetOptions) (ob ou oa : BodyOptions) (od : DeleteOptions) :
    get none t (some og)
      = { result := .resolved none, stderr := [noApiMsg], requests := [] } ∧
    post none t (some ob)
      = { result := .resolved none, stderr := [noApiMsg], requests := [] } ∧
    put none t (some ou)
      = { result := .resolved none, stderr := [noApiMsg], requests := [] } ∧
    patch none t (some oa)
      = { result := .resolved none, stderr := [noApiMsg], requests := [] } ∧
    remove none t (some od)
      = { result := .resolved none, stderr := [noApiMsg], requests := [] } :=
  ⟨rfl, rfl, rfl, rfl, rfl⟩

/-- C9: with no config given, post, patch and delete issue their request
with the credential-bearing default config, while put issues it with the
empty object config. -/
theorem default_config_credentials (baseURL : String) (cfg : JSValue)
    (t : Request → AxiosOutcome) (route : String) (d : JSValue) :
    ((post (createApiApp baseURL cfg) t
        (some { route := route, data := d, config := .undefined })).requests.map Request.config
      = [.obj [("withCredentials", .bool true)]]) ∧
    ((patch (createApiApp baseURL cfg) t
        (some { route := route, data := d, config := .undefined })).requests.map Request.config
      = [.obj [("withCredentials", .bool true)]]) ∧
    ((put (createApiApp baseURL cfg) t
        (some { route := route, data := d, config := .undefined })).requests.map Request.config
      = [.obj []]) ∧
    ((remove (createApiApp baseURL cfg) t
        (some { route := route, config := .undefined })).requests.map Request.config
      = [.obj [("withCredentials", .bool true)]]) :=
  ⟨rfl, rfl, rfl, rfl⟩

/-- C10: invoking any verb with no options object at all, whatever the
state of initialization, rejects with the destructuring TypeError rather
than settling with an envelope or undefined. -/
theorem undefined_options_rejects (api : Option ApiHandle)
    (t : Request → AxiosOutcome) :
    (get api t none).result = .rejected destructureTypeError ∧
    (post api t none).result = .rejected destructureTypeError ∧
    (put api t none).result = .rejected destructureTypeError ∧
    (patch api t none).result = .rejected destructureTypeError ∧
    (remove api t none).result = .rejected destructureTypeError :=
  ⟨rfl, rfl, rfl, rfl, rfl⟩
